import Mathlib

/-!
Shallow embedding of the playground CLI echo program
(src/release/build_20251116_231844/playground/main.c) and verification of
its observable behaviour.

The C program receives an argument vector `argv` of length `argc`
(index 0 holds the invocation name).  We model `argv` as a
`List String`, so `argc = argv.length`, and model the bytes written to
standard output as one Lean `String`.  The exit code is a `Nat`.
-/

/-- The fixed banner: the concatenation of the first three `printf`
literals of `main` (the third literal ends with a blank line). -/
def bannerText : String :=
  "=== Playground Test Area for Orca ===\n" ++
  "Hello from playground!\n" ++
  "This is a test environment for orca integration.\n\n"

/-- The closing `printf` literal of `main`: a blank line followed by the
completion message. -/
def completionText : String := "\nPlayground test completed successfully.\n"

/-- One line of the argument listing: the output of
`printf("  [%d]: %s\n", i, argv[i])`. -/
def argLine (i : Nat) (v : String) : String :=
  "  [" ++ toString i ++ "]: " ++ v ++ "\n"

/-- The loop `for (int i = 1; i < argc; i++) printf("  [%d]: %s\n", i, argv[i]);`
started at index `i`, as the string it writes. -/
def echoLoop (argv : List String) (i : Nat) : String :=
  if h : i < argv.length then
    argLine i (argv.get ⟨i, h⟩) ++ echoLoop argv (i + 1)
  else ""
termination_by argv.length - i

/-- The full standard output of `main` on argument vector `argv`
(with `argc = argv.length`): banner, then either the argument listing
(when `argc > 1`) or the no-arguments message, then the completion text. -/
def main_output (argv : List String) : String :=
  bannerText ++
    ((if 1 < argv.length then
        "Arguments received:\n" ++ echoLoop argv 1
      else
        "No arguments provided.\n") ++
      completionText)

/-- The exit code of `main`: the program ends with `return 0;`. -/
def main_exit (_argv : List String) : Nat := 0

/-- Specification-side description of the argument listing, following the
words of spec §4.1: one line `  [<index>]: <value>` per argument, in the
order received, indices counting up from the starting index, the value
copied verbatim with no transformation.  Compared against `echoLoop`,
which embeds the source loop. -/
def argLinesFrom : Nat → List String → String
  | _, [] => ""
  | i, v :: rest => argLine i v ++ argLinesFrom (i + 1) rest

/-- The loop with every `argv[i]` access checked: `List.get?` stands for
the array access, and an out-of-bounds access would surface as `none`. -/
def echoLoopChecked (argv : List String) (i : Nat) : Option String :=
  if i < argv.length then
    match argv.get? i with
    | some v => (echoLoopChecked argv (i + 1)).map (fun r => argLine i v ++ r)
    | none => none
  else some ""
termination_by argv.length - i

/-- `main` with every fallible step made explicit: `none` would mean an
error branch was taken somewhere. -/
def main_run (argv : List String) : Option (String × Nat) :=
  (if 1 < argv.length then
     (echoLoopChecked argv 1).map (fun s => "Arguments received:\n" ++ s)
   else
     some "No arguments provided.\n").map
    (fun mid => (bannerText ++ (mid ++ completionText), 0))

/-- The echo loop run on an explicit fuel budget: each iteration consumes
one unit of fuel, and `none` means the fuel ran out before the loop
finished. -/
def echoLoopFuel : Nat → List String → Nat → Option String
  | 0, _, _ => none
  | fuel + 1, argv, i =>
    if h : i < argv.length then
      (echoLoopFuel fuel argv (i + 1)).map (fun r => argLine i (argv.get ⟨i, h⟩) ++ r)
    else some ""

/-! ### Helper lemmas -/

theorem str_append_assoc (a b c : String) : a ++ b ++ c = a ++ (b ++ c) :=
  String.append_assoc a b c

theorem echoLoop_eq_argLinesFrom (argv : List String) (i : Nat) :
    echoLoop argv i = argLinesFrom i (argv.drop i) := by
  rw [echoLoop]
  by_cases h : i < argv.length
  · rw [dif_pos h, List.drop_eq_getElem_cons h, argLinesFrom,
      echoLoop_eq_argLinesFrom argv (i + 1)]
    rfl
  · rw [dif_neg h, List.drop_eq_nil_of_le (Nat.le_of_not_lt h)]
    rfl
termination_by argv.length - i

theorem echoLoopChecked_eq (argv : List String) (i : Nat) :
    echoLoopChecked argv i = some (echoLoop argv i) := by
  rw [echoLoopChecked, echoLoop]
  by_cases h : i < argv.length
  · rw [if_pos h, dif_pos h, List.get?_eq_get h,
      echoLoopChecked_eq argv (i + 1)]
    rfl
  · rw [if_neg h, dif_neg h]
termination_by argv.length - i

theorem echoLoopFuel_complete (fuel : Nat) (argv : List String) (i : Nat)
    (h : argv.length - i < fuel) :
    echoLoopFuel fuel argv i = some (echoLoop argv i) := by
  induction fuel generalizing i with
  | zero => omega
  | succ n ih =>
    rw [echoLoopFuel, echoLoop]
    by_cases hi : i < argv.length
    · rw [dif_pos hi, dif_pos hi, ih (i + 1) (by omega)]
      rfl
    · rw [dif_neg hi, dif_neg hi]

/-! ### Claims -/

/-- Claim C1: for every invocation with N >= 1 arguments, the output is
the banner, the line `Arguments received:`, then exactly one line
`  [<i>]: <value>` per argument for i = 1..N in the order received, each
value copied byte for byte with no transformation, then the completion
text. -/
theorem C1_arguments_echoed (prog : String) (args : List String)
    (h : 1 ≤ args.length) :
    main_output (prog :: args) =
      bannerText ++
        (("Arguments received:\n" ++ argLinesFrom 1 args) ++ completionText) := by
  have hlen : 1 < (prog :: args).length := by
    simp only [List.length_cons]; omega
  rw [main_output, if_pos hlen, echoLoop_eq_argLinesFrom]
  rfl

/-- Witness for C1 at a concrete invocation with two arguments, the
second the empty string, so that the line `  [2]: ` is covered. -/
theorem C1_arguments_echoed_witness :
    1 ≤ (["foo", ""] : List String).length ∧
    main_output ("playground" :: ["foo", ""]) =
      bannerText ++
        (("Arguments received:\n" ++ argLinesFrom 1 ["foo", ""]) ++ completionText) :=
  ⟨by decide, C1_arguments_echoed "playground" ["foo", ""] (by decide)⟩

/-- Claim C2: on every invocation the output begins with the fixed
three-line banner followed by a blank line, before any
argument-dependent output. -/
theorem C2_banner_first (argv : List String) :
    ∃ rest, main_output argv =
      "=== Playground Test Area for Orca ===\nHello from playground!\nThis is a test environment for orca integration.\n\n" ++ rest := by
  refine ⟨(if 1 < argv.length then "Arguments received:\n" ++ echoLoop argv 1
           else "No arguments provided.\n") ++ completionText, ?_⟩
  rw [main_output]
  rw [show bannerText =
    "=== Playground Test Area for Orca ===\nHello from playground!\nThis is a test environment for orca integration.\n\n" from by decide]

/-- Counterexample to claim C3 as stated: on the zero-argument
invocation with program name `playground`, the output does not end with
the line `No arguments provided.` (neither with nor without its
terminating newline), because the completion message follows it. -/
theorem C3_counterexample :
    ¬ ("No arguments provided.".data <:+ (main_output ["playground"]).data) ∧
    ¬ ("No arguments provided.\n".data <:+ (main_output ["playground"]).data) := by
  constructor
  · decide
  · decide

set_option maxRecDepth 8192 in
/-- Claim C3 (amended): for every invocation with zero arguments, the
output contains the line `No arguments provided.` directly after the
banner and directly before the closing blank line and completion
message, and does not contain the line `Arguments received:`. -/
theorem C3_no_arguments_message (argv : List String) (h : argv.length ≤ 1) :
    main_output argv =
      bannerText ++ ("No arguments provided.\n" ++ completionText) ∧
    ¬ ("Arguments received:".data <:+: (main_output argv).data) := by
  have hlt : ¬ 1 < argv.length := by omega
  have h1 : main_output argv =
      bannerText ++ ("No arguments provided.\n" ++ completionText) := by
    rw [main_output, if_neg hlt]
  refine ⟨h1, ?_⟩
  rw [h1]
  decide

/-- Witness for the amended C3 at the concrete zero-argument invocation. -/
theorem C3_no_arguments_message_witness :
    (["playground"] : List String).length ≤ 1 ∧
    (main_output ["playground"] =
        bannerText ++ ("No arguments provided.\n" ++ completionText) ∧
      ¬ ("Arguments received:".data <:+: (main_output ["playground"]).data)) :=
  ⟨by decide, C3_no_arguments_message ["playground"] (by decide)⟩

/-- Claim C4: on every invocation the output ends with a blank line
followed by the line `Playground test completed successfully.`. -/
theorem C4_completion_last (argv : List String) :
    ∃ p, main_output argv =
      p ++ "\nPlayground test completed successfully.\n" := by
  refine ⟨bannerText ++
    (if 1 < argv.length then "Arguments received:\n" ++ echoLoop argv 1
     else "No arguments provided.\n"), ?_⟩
  rw [main_output, str_append_assoc]
  rfl

/-- Claim C5: the exit code is 0 for every argument list. -/
theorem C5_exit_zero (argv : List String) : main_exit argv = 0 := rfl

/-- Claim C6: the program takes no error branch on any input: the run
with every fallible step (each `argv[i]` access) made explicit always
succeeds, returning exactly the output and exit code of the program. -/
theorem C6_no_error_branch (argv : List String) :
    main_run argv = some (main_output argv, main_exit argv) := by
  rw [main_run, main_output]
  by_cases h : 1 < argv.length
  · rw [if_pos h, if_pos h, echoLoopChecked_eq]
    rfl
  · rw [if_neg h, if_neg h]
    rfl

/-- Claim C7: determinism: two invocations with identical argument lists
produce byte-identical output and the same exit code. -/
theorem C7_deterministic (argv1 argv2 : List String) (h : argv1 = argv2) :
    main_output argv1 = main_output argv2 ∧
    main_exit argv1 = main_exit argv2 := by
  subst h
  exact ⟨rfl, rfl⟩

/-- Witness for C7 at a concrete pair of identical invocations. -/
theorem C7_deterministic_witness :
    (["playground", "foo"] : List String) = ["playground", "foo"] ∧
    (main_output ["playground", "foo"] = main_output ["playground", "foo"] ∧
     main_exit ["playground", "foo"] = main_exit ["playground", "foo"]) :=
  ⟨rfl, C7_deterministic ["playground", "foo"] ["playground", "foo"] rfl⟩

/-- Claim C8: the output and exit code do not depend on the invocation
name argv[0]: two invocations differing only in argv[0] behave
identically, so argv[0] is never displayed. -/
theorem C8_program_name_independent (p1 p2 : String) (args : List String) :
    main_output (p1 :: args) = main_output (p2 :: args) ∧
    main_exit (p1 :: args) = main_exit (p2 :: args) := by
  refine ⟨?_, rfl⟩
  rw [main_output, main_output]
  by_cases h : 1 < (p1 :: args).length
  · have h2 : 1 < (p2 :: args).length := by
      simp only [List.length_cons] at h ⊢; omega
    rw [if_pos h, if_pos h2, echoLoop_eq_argLinesFrom, echoLoop_eq_argLinesFrom]
    rfl
  · have h2 : ¬ 1 < (p2 :: args).length := by
      simp only [List.length_cons] at h ⊢; omega
    rw [if_neg h, if_neg h2]

/-- Claim C9: with an entirely empty argument vector (argc = 0, not even
a program name), the branch condition argc > 1 is false, so the program
still prints the banner, `No arguments provided.`, the blank line and
the completion message, and exits with code 0. -/
theorem C9_empty_argv :
    main_output [] =
      bannerText ++ ("No arguments provided.\n" ++ completionText) ∧
    main_exit [] = 0 :=
  ⟨rfl, rfl⟩

/-- Claim C10: the loop terminates on every argument list: run on a fuel
budget of argc + 1 it finishes (returns `some`) with the same result as
the unbounded loop, so it iterates at most argc times and the program
performs no other iteration. -/
theorem C10_loop_terminates (argv : List String) :
    echoLoopFuel (argv.length + 1) argv 1 = some (echoLoop argv 1) :=
  echoLoopFuel_complete (argv.length + 1) argv 1 (by omega)
